import Mathlib

/-!
A shallow embedding of client_response_stream.c

The file models `sendData` and `application_start` of
`WICED/application_layer/dev_app_layer_protocol/edge_devices/client_response_stream/client_response_stream.c`.

* `sprintf` conversions `%02X`, `%04X`, `%X`, `%u` are modelled on the C standard:
  the argument is read as a 32-bit `unsigned int`, written most significant digit first
  with at least one digit, and left-padded with `'0'` up to the field width.
* Every call into the WICED library is recorded as an `Event`; what the library answers
  is supplied by an environment record.
-/

namespace ClientResponseStream

/-! ## printf conversions -/

/-- One uppercase hexadecimal digit, as `%X` writes it: `'0'+d` below ten, `'A'+(d-10)` from ten on. -/
def hexDigit (d : Nat) : Char :=
  if d < 10 then Char.ofNat (48 + d) else Char.ofNat (65 + (d - 10))

/-- Digit loop of the `%X` conversion: the least significant digit is produced first and
pushed in front of the digits already produced; the loop stops when the quotient is zero. -/
def hexDigitsAux : Nat → Nat → List Char → List Char
  | 0, _, acc => acc
  | fuel + 1, n, acc =>
    let acc1 := hexDigit (n % 16) :: acc
    if n / 16 = 0 then acc1 else hexDigitsAux fuel (n / 16) acc1

/-- The digits of `%X` for an `unsigned int` (32 bits, so at most eight digits). -/
def hexDigits (n : Nat) : List Char :=
  hexDigitsAux 8 (n % 2 ^ 32) []

/-- The conversion `%0<width>X`: the digits, left-padded with `'0'` to the field width. -/
def fmtX (width : Nat) (n : Nat) : List Char :=
  let ds := hexDigits n
  List.replicate (width - ds.length) '0' ++ ds

/-- An `int` argument read by `%X` as `unsigned int`. -/
def asUnsigned (v : Int) : Nat :=
  (v % 2 ^ 32).toNat

/-! ## Data -/

/-- The six octets of `wiced_mac_t`. -/
structure wiced_mac_t where
  octet : Fin 6 → Nat

/-- Every octet of the address is a byte. -/
def wiced_mac_t.wellFormed (m : wiced_mac_t) : Prop :=
  ∀ i : Fin 6, m.octet i < 256

instance (m : wiced_mac_t) : Decidable m.wellFormed :=
  inferInstanceAs (Decidable (∀ i : Fin 6, m.octet i < 256))

/-- Capacity of `char sendMessage[28]`. -/
def sendMessageSize : Nat := 28

/-- The twelve digits `%02X%02X%02X%02X%02X%02X` of the six octets. -/
def fmtMac (m : wiced_mac_t) : List Char :=
  fmtX 2 (m.octet 0) ++ fmtX 2 (m.octet 1) ++ fmtX 2 (m.octet 2) ++
  fmtX 2 (m.octet 3) ++ fmtX 2 (m.octet 4) ++ fmtX 2 (m.octet 5)

/-- The formatting step of `sendData` (source lines 57-70): the characters `sprintf` produces
for `sendMessage`, or `none` on the branch that prints "Invalid command type" and returns.
`regAdd` is a `uint8_t` parameter, `regVal` an `int` read by `%04X`. -/
def formatMessage (myMac : wiced_mac_t) (type : Char) (regAdd : Nat) (regVal : Int) :
    Option (List Char) :=
  if type = 'W' then
    some ("W-BDSC-".toList ++ fmtMac myMac ++ "-".toList ++ fmtX 2 (regAdd % 256) ++
      "-".toList ++ fmtX 4 (asUnsigned regVal) ++ "\n".toList)
  else if type = 'R' then
    some ("R-BDSC-".toList ++ fmtMac myMac ++ "-".toList ++ fmtX 2 (regAdd % 256) ++ "\n".toList)
  else
    none

/-! ## Results, events and what the library answers -/

/-- Modelled from the spec: `wiced_result_t` is declared in `wiced.h`, which is not among the
sources. The source compares results with `WICED_SUCCESS` and with `WICED_ERROR`; the
specification names the further outcomes `Timeout` and `Partial`. -/
inductive wiced_result_t
  | WICED_SUCCESS
  | WICED_TIMEOUT
  | WICED_PARTIAL_RESULTS
  | WICED_ERROR
  deriving DecidableEq, Repr

open wiced_result_t

/-- What the program does to the outside: a line on the terminal (`WPRINT_APP_INFO`) or a
call into the WICED library. -/
inductive Event
  | print (text : List Char)
  | tcp_create_socket
  | tcp_bind
  | tcp_connect (address port timeout_ms : Nat)
  | tcp_stream_init
  | tcp_stream_write (data : List Char)
  | tcp_stream_flush
  | tcp_stream_read_with_count (length timeout_ms : Nat)
  | tcp_stream_deinit
  | tcp_delete_socket
  | init
  | network_up
  | network_set_hostname (name : List Char)
  | wifi_get_mac_address
  | hostname_lookup (name : List Char) (timeout_ms : Nat)
  | rtos_init_semaphore (button : Nat)
  | gpio_input_irq_enable (button : Nat)
  | rtos_create_thread (name : List Char)
  deriving DecidableEq

/-- The transport calls: create socket, bind, connect, stream init, write, flush, read,
deinit, delete. -/
def Event.isTransport : Event → Bool
  | .tcp_create_socket => true
  | .tcp_bind => true
  | .tcp_connect _ _ _ => true
  | .tcp_stream_init => true
  | .tcp_stream_write _ => true
  | .tcp_stream_flush => true
  | .tcp_stream_read_with_count _ _ => true
  | .tcp_stream_deinit => true
  | .tcp_delete_socket => true
  | _ => false

/-- A terminal line starting with the given text. -/
def Event.printStartsWith (p : List Char) : Event → Bool
  | .print text => p.isPrefixOf text
  | _ => false

/-- The line `Server Response = ...`. -/
def Event.isServerResponse (e : Event) : Bool :=
  e.printStartsWith "Server Response = ".toList

/-- The line `Malformed response = ...`. -/
def Event.isMalformedResponse (e : Event) : Bool :=
  e.printStartsWith "Malformed response = ".toList

/-- The answers of the transport layer during one run of `sendData`: the result of each
call, and the bytes the peer delivers to the read. -/
structure TransportEnv where
  create_socket : wiced_result_t
  bind : wiced_result_t
  connect : wiced_result_t
  stream_init : wiced_result_t
  stream_write : wiced_result_t
  stream_flush : wiced_result_t
  stream_read : wiced_result_t
  read_data : List Nat
  stream_deinit : wiced_result_t
  delete_socket : wiced_result_t

/-- `#define SERVER_PORT (6999)`. -/
def SERVER_PORT : Nat := 6999

/-- Capacity of `char rbuffer[30]`. -/
def rbufferSize : Nat := 30

/-- The length `28` passed to `wiced_tcp_stream_read_with_count`. -/
def readLength : Nat := 28

/-- The read timeout `500` (milliseconds). -/
def readTimeout : Nat := 500

/-- A transport read of at most `length` bytes into the front of a buffer: the bytes
delivered overwrite the first positions, the rest of the buffer is untouched. -/
def readInto (buf : List Nat) (length : Nat) (data : List Nat) : List Nat :=
  let written := data.take length
  written ++ buf.drop written.length

/-- `char rbuffer[30] = {0}` after the read of `sendData`. -/
def rbufferAfterRead (env : TransportEnv) : List Nat :=
  readInto (List.replicate rbufferSize 0) readLength env.read_data

/-- What `%s` prints of a byte buffer: the bytes before the first zero byte. -/
def cString (buf : List Nat) : List Char :=
  (buf.takeWhile (fun b => b != 0)).map Char.ofNat

/-! ## sendData -/

/-- The function `sendData` (source lines 49-109) as the sequence of its events.
`myMac` and `serverAddress` are the file's static variables. -/
def sendData (myMac : wiced_mac_t) (serverAddress : Nat) (env : TransportEnv)
    (type : Char) (regAdd : Nat) (regVal : Int) : List Event :=
  match formatMessage myMac type regAdd regVal with
  | none => [.print "Invalid command type\n".toList]
  | some sendMessage =>
    let opened : List Event :=
      [.print ("Prepared Message = ".toList ++ sendMessage ++ "\n".toList),
       .tcp_create_socket,
       .tcp_bind,
       .tcp_connect serverAddress SERVER_PORT 2000]
    if env.connect = WICED_SUCCESS then
      let rbuffer := rbufferAfterRead env
      opened ++
      [.print "Successful connection!\n".toList,
       .tcp_stream_init,
       .tcp_stream_write sendMessage,
       .tcp_stream_flush,
       .tcp_stream_read_with_count readLength readTimeout,
       (if env.stream_read = WICED_SUCCESS then
          .print ("Server Response = ".toList ++ cString rbuffer ++ "\n\n\n".toList)
        else
          .print ("Malformed response = ".toList ++ cString rbuffer ++ "\n\n\n".toList)),
       .tcp_stream_deinit,
       .tcp_delete_socket]
    else
      opened ++
      [.print "Failed connection!\n".toList,
       .tcp_delete_socket]

/-- The transport calls of a run, in order. -/
def transportCalls (trace : List Event) : List Event :=
  trace.filter Event.isTransport

/-! ## application_start -/

/-- The answers of the platform during `application_start`: the results of `wiced_init`
and `wiced_network_up`, the hardware address, and the outcome of `wiced_hostname_lookup`
(its result and the IPv4 value it leaves in `serverAddress`). -/
structure StartupEnv where
  init : wiced_result_t
  network_up : wiced_result_t
  mac : wiced_mac_t
  lookup : wiced_result_t
  lookup_address : Nat

/-- The static variables `serverAddress` (its IPv4 value) and `myMac`. -/
structure AppState where
  serverAddress : Nat
  myMac : wiced_mac_t

/-- Modelled from the spec: the macro `MAKE_IPV4_ADDRESS` of `wiced.h` is not among the
sources; the first number is the most significant byte, as the source prints the address
(`>> 24` first). -/
def MAKE_IPV4_ADDRESS (a b c d : Nat) : Nat :=
  a * 2 ^ 24 + b * 2 ^ 16 + c * 2 ^ 8 + d

/-- The hard-coded address `198.51.100.3`. -/
def fallbackAddress : Nat := MAKE_IPV4_ADDRESS 198 51 100 3

/-- The conversion `%u` of `(uint8_t)(address >> shift)`. -/
def fmtByteU (address shift : Nat) : List Char :=
  Nat.toDigits 10 (address / 2 ^ shift % 256)

/-- The line `Error in resolving DNS using hard coded address`. -/
def fallbackReport : Event :=
  .print "Error in resolving DNS using hard coded address\n".toList

/-- The function `application_start` (source lines 139-182): the static variables it
leaves and the sequence of its events. -/
def application_start (env : StartupEnv) : AppState × List Event :=
  let myMac := env.mac
  let before : List Event :=
    [.init,
     .network_up,
     .network_set_hostname "WICED001".toList,
     .wifi_get_mac_address,
     .print "DNS Lookup iotserver2\n".toList,
     .hostname_lookup "iotserver2".toList 5000]
  let resolved : Nat × List Event :=
    if env.lookup = WICED_ERROR ∨ env.lookup_address = 0 then
      (fallbackAddress, [fallbackReport])
    else
      (env.lookup_address,
       [.print ("iotserver2 IP : ".toList ++ fmtByteU env.lookup_address 24 ++ ".".toList ++
          fmtByteU env.lookup_address 16 ++ ".".toList ++ fmtByteU env.lookup_address 8 ++
          ".".toList ++ fmtByteU env.lookup_address 0 ++ "\n\n".toList)])
  let after : List Event :=
    [.print "MY MAC Address: ".toList,
     .print (hexDigits (myMac.octet 0) ++ ":".toList ++ hexDigits (myMac.octet 1) ++ ":".toList ++
        hexDigits (myMac.octet 2) ++ ":".toList ++ hexDigits (myMac.octet 3) ++ ":".toList ++
        hexDigits (myMac.octet 4) ++ ":".toList ++ hexDigits (myMac.octet 5) ++ "\r\n".toList),
     .rtos_init_semaphore 0,
     .rtos_init_semaphore 1,
     .gpio_input_irq_enable 0,
     .gpio_input_irq_enable 1,
     .rtos_create_thread "Button Update".toList,
     .rtos_create_thread "Button Inquiry".toList,
     .print "Activated button threads...".toList]
  (⟨resolved.1, myMac⟩, before ++ resolved.2 ++ after)

/-- Registering an interrupt handler. -/
def Event.isIrqEnable : Event → Bool
  | .gpio_input_irq_enable _ => true
  | _ => false

/-- Creating a worker thread. -/
def Event.isCreateThread : Event → Bool
  | .rtos_create_thread _ => true
  | _ => false

/-! ## The frame grammar of the specification -/

/-- The sixteen uppercase hexadecimal digits, by table. -/
def specHexDigit (d : Nat) : Char :=
  "0123456789ABCDEF".toList.getD d '0'

/-- A number written as exactly `width` zero-padded uppercase hexadecimal digits. -/
def specHex (width : Nat) (n : Nat) : List Char :=
  (List.range width).reverse.map (fun i => specHexDigit (n / 16 ^ i % 16))

/-- The six address bytes as twelve uppercase hexadecimal digits without separators. -/
def specMac (m : wiced_mac_t) : List Char :=
  (List.finRange 6).flatMap (fun i => specHex 2 (m.octet i))

/-- Write frame of the specification. -/
def specWriteFrame (m : wiced_mac_t) (register value : Nat) : List Char :=
  "W-BDSC-".toList ++ specMac m ++ ['-'] ++ specHex 2 register ++ ['-'] ++ specHex 4 value ++ ['\n']

/-- Read frame of the specification. -/
def specReadFrame (m : wiced_mac_t) (register : Nat) : List Char :=
  "R-BDSC-".toList ++ specMac m ++ ['-'] ++ specHex 2 register ++ ['\n']

/-- The address `AA:BB:CC:DD:EE:FF`. -/
def macAABBCCDDEEFF : wiced_mac_t :=
  ⟨![0xAA, 0xBB, 0xCC, 0xDD, 0xEE, 0xFF]⟩

/-- The number of dash-delimited sections of a frame. -/
def dashSections (frame : List Char) : Nat :=
  (frame.splitOn '-').length

/-! ## Concrete environments -/

/-- A transport that answers success to every call and delivers no byte. -/
def envAllSuccess : TransportEnv :=
  ⟨WICED_SUCCESS, WICED_SUCCESS, WICED_SUCCESS, WICED_SUCCESS, WICED_SUCCESS, WICED_SUCCESS,
    WICED_SUCCESS, [], WICED_SUCCESS, WICED_SUCCESS⟩

/-- A transport whose connect succeeds and whose stream write and flush fail; the peer then
delivers a full reply of 28 bytes. -/
def envWriteFails : TransportEnv :=
  { envAllSuccess with
    stream_write := WICED_ERROR, stream_flush := WICED_ERROR, read_data := List.replicate 28 65 }

/-- A transport whose connect fails. -/
def envConnectFails : TransportEnv :=
  { envAllSuccess with connect := WICED_TIMEOUT }

/-- A transport whose read times out after two bytes. -/
def envReadTimeout : TransportEnv :=
  { envAllSuccess with stream_read := WICED_TIMEOUT, read_data := [79, 75] }

/-- The outcomes the hostname lookup can have: `serverAddress` is a static variable, zero
until the lookup writes it, and the lookup runs once; a lookup that does not succeed writes
no address, so the value it leaves is the null address. -/
def StartupEnv.lookupOutcome (env : StartupEnv) : Prop :=
  env.lookup ≠ WICED_SUCCESS → env.lookup_address = 0

instance (env : StartupEnv) : Decidable env.lookupOutcome :=
  inferInstanceAs (Decidable (env.lookup ≠ WICED_SUCCESS → env.lookup_address = 0))

/-- A platform whose hostname lookup times out, leaving `serverAddress` null. -/
def envLookupTimeout : StartupEnv :=
  ⟨WICED_SUCCESS, WICED_SUCCESS, macAABBCCDDEEFF, WICED_TIMEOUT, 0⟩

/-- A platform whose hostname lookup succeeds with the address 10.0.0.1. -/
def envLookupResolves : StartupEnv :=
  ⟨WICED_SUCCESS, WICED_SUCCESS, macAABBCCDDEEFF, WICED_SUCCESS, MAKE_IPV4_ADDRESS 10 0 0 1⟩

/-- A platform whose initialisation and network bring-up both fail. -/
def envBringUpFails : StartupEnv :=
  ⟨WICED_ERROR, WICED_ERROR, macAABBCCDDEEFF, WICED_SUCCESS, MAKE_IPV4_ADDRESS 10 0 0 1⟩

/-! ## Lemmas on the conversions -/

theorem hexDigit_eq_spec (d : Nat) (h : d < 16) : hexDigit d = specHexDigit d := by
  interval_cases d <;> decide

theorem specHex_two (n : Nat) :
    specHex 2 n = [specHexDigit (n / 16 % 16), specHexDigit (n % 16)] := by
  simp [specHex, List.range_succ]

theorem specHex_four (n : Nat) :
    specHex 4 n = [specHexDigit (n / 4096 % 16), specHexDigit (n / 256 % 16),
      specHexDigit (n / 16 % 16), specHexDigit (n % 16)] := by
  simp [specHex, List.range_succ]

theorem fmtX_two (n : Nat) (h : n < 256) : fmtX 2 n = specHex 2 n := by
  have hm : n % 2 ^ 32 = n := Nat.mod_eq_of_lt (by omega)
  rw [specHex_two, ← hexDigit_eq_spec _ (Nat.mod_lt _ (by decide)),
    ← hexDigit_eq_spec _ (Nat.mod_lt _ (by decide))]
  unfold fmtX hexDigits
  rw [hm]
  by_cases h1 : n / 16 = 0
  · have e1 : n / 16 % 16 = 0 := by omega
    simp [hexDigitsAux, h1, e1, hexDigit]
  · have h2 : n / 16 / 16 = 0 := by omega
    simp [hexDigitsAux, h1, h2]

theorem fmtX_four (n : Nat) (h : n < 65536) : fmtX 4 n = specHex 4 n := by
  have hm : n % 2 ^ 32 = n := Nat.mod_eq_of_lt (by omega)
  rw [specHex_four, ← hexDigit_eq_spec _ (Nat.mod_lt _ (by decide)),
    ← hexDigit_eq_spec _ (Nat.mod_lt _ (by decide)),
    ← hexDigit_eq_spec _ (Nat.mod_lt _ (by decide)),
    ← hexDigit_eq_spec _ (Nat.mod_lt _ (by decide))]
  unfold fmtX hexDigits
  rw [hm]
  by_cases h1 : n / 16 = 0
  · have e1 : n / 16 % 16 = 0 := by omega
    have e2 : n / 256 % 16 = 0 := by omega
    have e3 : n / 4096 % 16 = 0 := by omega
    simp [hexDigitsAux, h1, e1, e2, e3, hexDigit]
  · by_cases h2 : n / 16 / 16 = 0
    · have e2 : n / 256 % 16 = 0 := by omega
      have e3 : n / 4096 % 16 = 0 := by omega
      simp [hexDigitsAux, h1, h2, e2, e3, hexDigit]
    · by_cases h3 : n / 16 / 16 / 16 = 0
      · have e3 : n / 4096 % 16 = 0 := by omega
        have e2 : n / 16 / 16 % 16 = n / 256 % 16 := by omega
        simp [hexDigitsAux, h1, h2, h3, e2, e3, hexDigit]
      · have h4 : n / 16 / 16 / 16 / 16 = 0 := by omega
        have e2 : n / 16 / 16 % 16 = n / 256 % 16 := by omega
        have e3 : n / 16 / 16 / 16 % 16 = n / 4096 % 16 := by omega
        simp [hexDigitsAux, h1, h2, h3, h4, e2, e3]

theorem fmtMac_eq_spec (m : wiced_mac_t) (h : m.wellFormed) : fmtMac m = specMac m := by
  unfold fmtMac specMac
  rw [fmtX_two _ (h 0), fmtX_two _ (h 1), fmtX_two _ (h 2), fmtX_two _ (h 3),
    fmtX_two _ (h 4), fmtX_two _ (h 5)]
  simp [List.finRange, List.flatMap, List.pmap, List.range, List.range.loop]
  rfl

theorem hexDigit_ne_dash (d : Nat) (h : d < 16) : hexDigit d ≠ '-' := by
  interval_cases d <;> decide

theorem count_dash_hexDigitsAux (fuel n : Nat) (acc : List Char) :
    (hexDigitsAux fuel n acc).count '-' = acc.count '-' := by
  induction fuel generalizing n acc with
  | zero => rfl
  | succ k ih =>
    have hd : hexDigit (n % 16) ≠ '-' := hexDigit_ne_dash _ (Nat.mod_lt _ (by decide))
    unfold hexDigitsAux
    by_cases h1 : n / 16 = 0
    · simp [h1, List.count_cons, hd]
    · simp [h1, ih, List.count_cons, hd]

theorem count_dash_fmtX (width n : Nat) : (fmtX width n).count '-' = 0 := by
  unfold fmtX hexDigits
  simp [List.count_append, count_dash_hexDigitsAux, List.count_replicate]

theorem count_dash_fmtMac (m : wiced_mac_t) : (fmtMac m).count '-' = 0 := by
  unfold fmtMac
  simp [List.count_append, count_dash_fmtX]

theorem dashSections_eq_count (l : List Char) : dashSections l = l.count '-' + 1 := by
  unfold dashSections List.splitOn
  induction l with
  | nil => simp
  | cons c t ih =>
    rw [List.splitOnP_cons]
    by_cases hc : c = '-'
    · subst hc
      simp [ih]
    · have hb : (c == '-') = false := by simpa using hc
      simp [hb, ih, List.count_cons, hc]

theorem width_le_length_fmtX (width n : Nat) : width ≤ (fmtX width n).length := by
  unfold fmtX
  simp only [List.length_append, List.length_replicate]
  omega

theorem length_fmtX_two (n : Nat) (h : n < 256) : (fmtX 2 n).length = 2 := by
  rw [fmtX_two n h, specHex_two]; rfl

theorem length_fmtMac (m : wiced_mac_t) (h : m.wellFormed) : (fmtMac m).length = 12 := by
  unfold fmtMac
  simp [length_fmtX_two _ (h 0), length_fmtX_two _ (h 1), length_fmtX_two _ (h 2),
    length_fmtX_two _ (h 3), length_fmtX_two _ (h 4), length_fmtX_two _ (h 5)]

theorem asUnsigned_of_range (v : Int) (h0 : 0 ≤ v) (h1 : v ≤ 0xFFFF) :
    asUnsigned v = v.toNat ∧ v.toNat < 65536 := by
  unfold asUnsigned
  have e : v % 2 ^ 32 = v := Int.emod_eq_of_lt h0 (by omega)
  rw [e]
  omega

/-! ## The frames -/

/-- C1: for every 6-byte address, register byte and value in 0..0xFFFF, the formatting step
of `sendData` for type 'W' yields exactly the Write frame of the specification
("W-BDSC-", twelve uppercase digits of the address, "-", two digits of the register, "-",
four digits of the value, newline), this frame is what the run announces as prepared
message, and address AA:BB:CC:DD:EE:FF, register 0x10, value 1 give
"W-BDSC-AABBCCDDEEFF-10-0001\n". -/
theorem C1_write_frame (myMac : wiced_mac_t) (regAdd : Nat) (regVal : Int)
    (hmac : myMac.wellFormed) (hreg : regAdd < 256) (hval : 0 ≤ regVal ∧ regVal ≤ 0xFFFF) :
    formatMessage myMac 'W' regAdd regVal = some (specWriteFrame myMac regAdd regVal.toNat) ∧
    (∀ (serverAddress : Nat) (env : TransportEnv),
      (sendData myMac serverAddress env 'W' regAdd regVal).head? =
        some (.print ("Prepared Message = ".toList ++
          specWriteFrame myMac regAdd regVal.toNat ++ "\n".toList))) ∧
    formatMessage macAABBCCDDEEFF 'W' 0x10 1 = some "W-BDSC-AABBCCDDEEFF-10-0001\n".toList := by
  obtain ⟨hu, hlt⟩ := asUnsigned_of_range regVal hval.1 hval.2
  have hf : formatMessage myMac 'W' regAdd regVal =
      some (specWriteFrame myMac regAdd regVal.toNat) := by
    unfold formatMessage specWriteFrame
    rw [if_pos rfl, fmtMac_eq_spec myMac hmac, Nat.mod_eq_of_lt hreg, fmtX_two regAdd hreg, hu,
      fmtX_four _ hlt]
    rfl
  refine ⟨hf, ?_, by decide⟩
  intro serverAddress env
  unfold sendData
  rw [hf]
  by_cases hc : env.connect = WICED_SUCCESS <;> simp [hc]

/-- Witness of C1 at address AA:BB:CC:DD:EE:FF, register 0x10, value 1. -/
theorem C1_write_frame_witness :
    macAABBCCDDEEFF.wellFormed ∧ (0x10 : Nat) < 256 ∧ ((0 : Int) ≤ 1 ∧ (1 : Int) ≤ 0xFFFF) ∧
    formatMessage macAABBCCDDEEFF 'W' 0x10 1 =
      some (specWriteFrame macAABBCCDDEEFF 0x10 (1 : Int).toNat) :=
  ⟨by decide, by decide, by decide,
    (C1_write_frame macAABBCCDDEEFF 0x10 1 (by decide) (by decide) (by decide)).1⟩

/-- C2: for every 6-byte address, register byte and value argument, the formatting step of
`sendData` for type 'R' yields exactly the Read frame of the specification ("R-BDSC-", twelve
uppercase digits of the address, "-", two digits of the register, newline); the frame does
not depend on the value argument and has one dash-delimited section fewer than the frame
formatted for type 'W' with the same address and register; address AA:BB:CC:DD:EE:FF,
register 0x10 give "R-BDSC-AABBCCDDEEFF-10\n". -/
theorem C2_read_frame (myMac : wiced_mac_t) (regAdd : Nat) (regVal : Int)
    (hmac : myMac.wellFormed) (hreg : regAdd < 256) :
    formatMessage myMac 'R' regAdd regVal = some (specReadFrame myMac regAdd) ∧
    (∀ other : Int, formatMessage myMac 'R' regAdd other = formatMessage myMac 'R' regAdd regVal) ∧
    (∀ (written : Int) (w r : List Char),
      formatMessage myMac 'W' regAdd written = some w →
      formatMessage myMac 'R' regAdd regVal = some r →
      dashSections r + 1 = dashSections w) ∧
    formatMessage macAABBCCDDEEFF 'R' 0x10 regVal = some "R-BDSC-AABBCCDDEEFF-10\n".toList := by
  have hex : formatMessage macAABBCCDDEEFF 'R' 0x10 regVal =
      formatMessage macAABBCCDDEEFF 'R' 0x10 0 := rfl
  refine ⟨?_, ?_, ?_, hex.trans (by decide)⟩
  · unfold formatMessage specReadFrame
    rw [if_neg (by decide), if_pos rfl, fmtMac_eq_spec myMac hmac, Nat.mod_eq_of_lt hreg,
      fmtX_two regAdd hreg]
    rfl
  · intro other
    rfl
  · intro written w r hw hr
    unfold formatMessage at hw hr
    rw [if_pos rfl] at hw
    rw [if_neg (by decide), if_pos rfl] at hr
    cases hw
    cases hr
    simp [dashSections_eq_count, List.count_append, count_dash_fmtX, count_dash_fmtMac,
      List.count_cons]

/-- Witness of C2 at address AA:BB:CC:DD:EE:FF, register 0x10, value argument 7. -/
theorem C2_read_frame_witness :
    macAABBCCDDEEFF.wellFormed ∧ (0x10 : Nat) < 256 ∧
    formatMessage macAABBCCDDEEFF 'R' 0x10 7 = some (specReadFrame macAABBCCDDEEFF 0x10) :=
  ⟨by decide, by decide, (C2_read_frame macAABBCCDDEEFF 0x10 7 (by decide) (by decide)).1⟩

/-- C3: for every type character other than 'W' and 'R', every register and value, `sendData`
produces no frame, prints only "Invalid command type" and makes no transport call. -/
theorem C3_invalid_type_no_io (myMac : wiced_mac_t) (serverAddress : Nat) (env : TransportEnv)
    (type : Char) (regAdd : Nat) (regVal : Int) (hW : type ≠ 'W') (hR : type ≠ 'R') :
    formatMessage myMac type regAdd regVal = none ∧
    sendData myMac serverAddress env type regAdd regVal =
      [.print "Invalid command type\n".toList] ∧
    transportCalls (sendData myMac serverAddress env type regAdd regVal) = [] := by
  have hf : formatMessage myMac type regAdd regVal = none := by
    unfold formatMessage
    rw [if_neg hW, if_neg hR]
  have hs : sendData myMac serverAddress env type regAdd regVal =
      [.print "Invalid command type\n".toList] := by
    unfold sendData
    rw [hf]
  refine ⟨hf, hs, ?_⟩
  rw [hs]
  rfl

/-- Witness of C3 at type 'X'. -/
theorem C3_invalid_type_no_io_witness :
    'X' ≠ 'W' ∧ 'X' ≠ 'R' ∧
    transportCalls (sendData macAABBCCDDEEFF fallbackAddress
      ⟨WICED_SUCCESS, WICED_SUCCESS, WICED_SUCCESS, WICED_SUCCESS, WICED_SUCCESS, WICED_SUCCESS,
        WICED_SUCCESS, [], WICED_SUCCESS, WICED_SUCCESS⟩ 'X' 0x10 1) = [] :=
  ⟨by decide, by decide,
    (C3_invalid_type_no_io macAABBCCDDEEFF fallbackAddress
      ⟨WICED_SUCCESS, WICED_SUCCESS, WICED_SUCCESS, WICED_SUCCESS, WICED_SUCCESS, WICED_SUCCESS,
        WICED_SUCCESS, [], WICED_SUCCESS, WICED_SUCCESS⟩ 'X' 0x10 1 (by decide) (by decide)).2.2⟩

/-- C10: the frame formatted for type 'W' does not fit: for every address, register and
value the formatted Write frame has at least 28 characters, so the frame and its terminating
NUL byte need more than the 28 bytes of `sendMessage`; at address AA:BB:CC:DD:EE:FF,
register 0x10, value 1 they need 29. -/
theorem C10_write_frame_exceeds_sendMessage (myMac : wiced_mac_t) (regAdd : Nat)
    (regVal : Int) :
    (∃ frame, formatMessage myMac 'W' regAdd regVal = some frame ∧
      sendMessageSize < frame.length + 1) ∧
    (formatMessage macAABBCCDDEEFF 'W' 0x10 1).map (fun frame => frame.length + 1) = some 29 := by
  refine ⟨⟨_, by unfold formatMessage; rw [if_pos rfl], ?_⟩, by decide⟩
  have h0 := width_le_length_fmtX 2 (myMac.octet 0)
  have h1 := width_le_length_fmtX 2 (myMac.octet 1)
  have h2 := width_le_length_fmtX 2 (myMac.octet 2)
  have h3 := width_le_length_fmtX 2 (myMac.octet 3)
  have h4 := width_le_length_fmtX 2 (myMac.octet 4)
  have h5 := width_le_length_fmtX 2 (myMac.octet 5)
  have h6 := width_le_length_fmtX 2 (regAdd % 256)
  have h7 := width_le_length_fmtX 4 (asUnsigned regVal)
  have e1 : "W-BDSC-".toList.length = 7 := rfl
  have e2 : "-".toList.length = 1 := rfl
  have e3 : "\n".toList.length = 1 := rfl
  simp only [List.length_append, fmtMac, sendMessageSize, e1, e2, e3]
  omega

/-! ## The exchange -/

theorem takeWhile_length_le_of_zero (a b : List Nat) :
    ((a ++ 0 :: b).takeWhile (fun x => x != 0)).length ≤ a.length := by
  induction a with
  | nil => simp
  | cons x t ih =>
    by_cases hx : x = 0
    · simp [hx]
    · simp only [List.cons_append, List.length_cons]
      rw [List.takeWhile_cons_of_pos (by simpa using hx)]
      simp only [List.length_cons]
      omega

theorem rbufferAfterRead_eq (env : TransportEnv) :
    rbufferAfterRead env =
      env.read_data.take readLength ++
        List.replicate (rbufferSize - (env.read_data.take readLength).length) 0 := by
  simp [rbufferAfterRead, readInto]

/-- C9: the length asked from the read (28) is smaller than the capacity of `rbuffer` (30);
for every read result and every sequence of bytes delivered, the buffer keeps its 30 bytes,
its front holds the (at most 28) bytes delivered, every position from 28 on still holds
zero, and the text printed from it ends before position 28, inside the buffer. -/
theorem C9_rbuffer_keeps_terminator (env : TransportEnv) :
    readLength < rbufferSize ∧
    (rbufferAfterRead env).length = rbufferSize ∧
    (rbufferAfterRead env).take (env.read_data.take readLength).length =
      env.read_data.take readLength ∧
    (rbufferAfterRead env).drop readLength = List.replicate (rbufferSize - readLength) 0 ∧
    (cString (rbufferAfterRead env)).length ≤ readLength := by
  have hlen : (env.read_data.take readLength).length ≤ readLength := by
    simp [List.length_take]
  have hsplit : rbufferAfterRead env =
      (env.read_data.take readLength ++
        List.replicate (readLength - (env.read_data.take readLength).length) 0) ++
        0 :: [0] := by
    rw [rbufferAfterRead_eq, List.append_assoc]
    congr 1
    have e : rbufferSize - (env.read_data.take readLength).length =
        (readLength - (env.read_data.take readLength).length) + 2 := by
      simp only [rbufferSize, readLength] at hlen ⊢
      omega
    rw [e, List.replicate_add]
    rfl
  have hfront : (env.read_data.take readLength ++
        List.replicate (readLength - (env.read_data.take readLength).length) 0).length =
      readLength := by
    simp only [List.length_append, List.length_replicate]
    omega
  refine ⟨by decide, ?_, ?_, ?_, ?_⟩
  · rw [hsplit, List.length_append, hfront]
    rfl
  · rw [rbufferAfterRead_eq, List.take_left]
  · rw [hsplit, List.drop_left' hfront]
    rfl
  · unfold cString
    rw [List.length_map, hsplit]
    exact (takeWhile_length_le_of_zero _ _).trans (le_of_eq hfront)


theorem formatMessage_isSome_iff (myMac : wiced_mac_t) (type : Char) (regAdd : Nat)
    (regVal : Int) :
    (∃ frame, formatMessage myMac type regAdd regVal = some frame) ↔ (type = 'W' ∨ type = 'R') := by
  unfold formatMessage
  by_cases hW : type = 'W'
  · simp [hW]
  · by_cases hR : type = 'R'
    · simp [hR]
    · simp [hW, hR]

/-- C5: for every combination of transport answers, a run of `sendData` that creates a
socket deletes it exactly once, the delete is its last transport call (and last event),
and the stream is de-initialised as many times (none or once) as it is initialised. -/
theorem C5_session_released_once (myMac : wiced_mac_t) (serverAddress : Nat)
    (env : TransportEnv) (type : Char) (regAdd : Nat) (regVal : Int)
    (hcreate : Event.tcp_create_socket ∈ sendData myMac serverAddress env type regAdd regVal) :
    (transportCalls (sendData myMac serverAddress env type regAdd regVal)).count
      .tcp_delete_socket = 1 ∧
    (transportCalls (sendData myMac serverAddress env type regAdd regVal)).getLast? =
      some .tcp_delete_socket ∧
    (sendData myMac serverAddress env type regAdd regVal).getLast? = some .tcp_delete_socket ∧
    (transportCalls (sendData myMac serverAddress env type regAdd regVal)).count
        .tcp_stream_deinit =
      (transportCalls (sendData myMac serverAddress env type regAdd regVal)).count
        .tcp_stream_init ∧
    (transportCalls (sendData myMac serverAddress env type regAdd regVal)).count
      .tcp_stream_init ≤ 1 := by
  unfold sendData at hcreate ⊢
  cases hf : formatMessage myMac type regAdd regVal with
  | none => simp [hf] at hcreate
  | some frame =>
    by_cases hc : env.connect = WICED_SUCCESS
    · by_cases hr : env.stream_read = WICED_SUCCESS <;>
        simp [hc, hr, transportCalls, Event.isTransport, List.filter_cons]
    · simp [hc, transportCalls, Event.isTransport, List.filter_cons]

/-- Witness of C5 at a run whose connect fails. -/
theorem C5_session_released_once_witness :
    Event.tcp_create_socket ∈ sendData macAABBCCDDEEFF fallbackAddress envConnectFails 'W' 0x10 1 ∧
    (transportCalls (sendData macAABBCCDDEEFF fallbackAddress envConnectFails 'W' 0x10 1)).count
      .tcp_delete_socket = 1 :=
  ⟨by decide,
    (C5_session_released_once macAABBCCDDEEFF fallbackAddress envConnectFails 'W' 0x10 1
      (by decide)).1⟩


theorem isServerResponse_server (t : List Char) :
    (Event.print ("Server Response = ".toList ++ t)).isServerResponse = true := by
  simp [Event.isServerResponse, Event.printStartsWith]

theorem isMalformedResponse_malformed (t : List Char) :
    (Event.print ("Malformed response = ".toList ++ t)).isMalformedResponse = true := by
  simp [Event.isMalformedResponse, Event.printStartsWith]

theorem isServerResponse_malformed (t : List Char) :
    (Event.print ("Malformed response = ".toList ++ t)).isServerResponse = false := by
  simp [Event.isServerResponse, Event.printStartsWith, List.isPrefixOf]

theorem isMalformedResponse_server (t : List Char) :
    (Event.print ("Server Response = ".toList ++ t)).isMalformedResponse = false := by
  simp [Event.isMalformedResponse, Event.printStartsWith, List.isPrefixOf]

theorem isServerResponse_prepared (t : List Char) :
    (Event.print ("Prepared Message = ".toList ++ t)).isServerResponse = false := by
  simp [Event.isServerResponse, Event.printStartsWith, List.isPrefixOf]

theorem isMalformedResponse_prepared (t : List Char) :
    (Event.print ("Prepared Message = ".toList ++ t)).isMalformedResponse = false := by
  simp [Event.isMalformedResponse, Event.printStartsWith, List.isPrefixOf]

theorem read_mem_sendData_iff (myMac : wiced_mac_t) (serverAddress : Nat)
    (env : TransportEnv) (type : Char) (regAdd : Nat) (regVal : Int) :
    Event.tcp_stream_read_with_count readLength readTimeout ∈
        sendData myMac serverAddress env type regAdd regVal ↔
      ((type = 'W' ∨ type = 'R') ∧ env.connect = WICED_SUCCESS) := by
  rw [← formatMessage_isSome_iff myMac type regAdd regVal]
  unfold sendData
  cases hf : formatMessage myMac type regAdd regVal with
  | none => simp
  | some frame =>
    by_cases hc : env.connect = WICED_SUCCESS
    · by_cases hr : env.stream_read = WICED_SUCCESS <;> simp [hc, hr]
    · simp [hc]

/-- C6: for every run of `sendData` that reaches the read, exactly one reply line is
printed: it is "Server Response" if and only if the read returns success, and
"Malformed response" if and only if the read returns anything else. -/
theorem C6_reply_report (myMac : wiced_mac_t) (serverAddress : Nat)
    (env : TransportEnv) (type : Char) (regAdd : Nat) (regVal : Int)
    (hread : Event.tcp_stream_read_with_count readLength readTimeout ∈
      sendData myMac serverAddress env type regAdd regVal) :
    ((sendData myMac serverAddress env type regAdd regVal).any Event.isServerResponse = true ↔
      env.stream_read = WICED_SUCCESS) ∧
    ((sendData myMac serverAddress env type regAdd regVal).any Event.isMalformedResponse = true ↔
      env.stream_read ≠ WICED_SUCCESS) ∧
    (sendData myMac serverAddress env type regAdd regVal).countP
      (fun e => e.isServerResponse || e.isMalformedResponse) = 1 := by
  obtain ⟨ht, hc⟩ := (read_mem_sendData_iff myMac serverAddress env type regAdd regVal).1 hread
  obtain ⟨frame, hf⟩ := (formatMessage_isSome_iff myMac type regAdd regVal).2 ht
  unfold sendData
  rw [hf]
  by_cases hr : env.stream_read = WICED_SUCCESS
  · simp [hc, hr, List.countP_cons, isServerResponse_server, isMalformedResponse_server,
      isServerResponse_prepared, isMalformedResponse_prepared]
    simp [Event.isServerResponse, Event.isMalformedResponse, Event.printStartsWith,
      List.isPrefixOf]
  · simp [hc, hr, List.countP_cons, isServerResponse_malformed, isMalformedResponse_malformed,
      isServerResponse_prepared, isMalformedResponse_prepared]
    simp [Event.isServerResponse, Event.isMalformedResponse, Event.printStartsWith,
      List.isPrefixOf]

/-- Witness of C6 at a run whose read times out. -/
theorem C6_reply_report_witness :
    Event.tcp_stream_read_with_count readLength readTimeout ∈
      sendData macAABBCCDDEEFF fallbackAddress envReadTimeout 'R' 0x10 0 ∧
    ((sendData macAABBCCDDEEFF fallbackAddress envReadTimeout 'R' 0x10 0).any
        Event.isMalformedResponse = true ↔
      envReadTimeout.stream_read ≠ WICED_SUCCESS) :=
  ⟨by decide,
    (C6_reply_report macAABBCCDDEEFF fallbackAddress envReadTimeout 'R' 0x10 0
      (by decide)).2.1⟩


/-- C7 (as stated, refuted): with a connect that succeeds and a stream write and flush that
both fail, `sendData` still attempts the read, prints no line other than the prepared
message, the successful connection and the server response, and so handles the run unlike a
connect failure. -/
theorem C7_write_failure_still_reads :
    envWriteFails.connect = WICED_SUCCESS ∧
    envWriteFails.stream_write = WICED_ERROR ∧
    envWriteFails.stream_flush = WICED_ERROR ∧
    Event.tcp_stream_read_with_count readLength readTimeout ∈
      sendData macAABBCCDDEEFF fallbackAddress envWriteFails 'W' 0x10 1 ∧
    (sendData macAABBCCDDEEFF fallbackAddress envWriteFails 'W' 0x10 1).any
      Event.isServerResponse = true ∧
    sendData macAABBCCDDEEFF fallbackAddress envWriteFails 'W' 0x10 1 ≠
      sendData macAABBCCDDEEFF fallbackAddress envConnectFails 'W' 0x10 1 := by
  decide

/-- C7 (amended): the results of stream write and flush are not examined. For every run of
`sendData` with type 'W' or 'R' whose connect succeeds, whatever write and flush return,
the run is the same as with a successful write and flush: the read is attempted, and the
transport calls end with stream deinit and socket delete, releasing the Session. -/
theorem C7_write_result_ignored (myMac : wiced_mac_t) (serverAddress : Nat)
    (env : TransportEnv) (type : Char) (regAdd : Nat) (regVal : Int)
    (htype : type = 'W' ∨ type = 'R') (hconnect : env.connect = WICED_SUCCESS) :
    sendData myMac serverAddress env type regAdd regVal =
      sendData myMac serverAddress
        { env with stream_write := WICED_SUCCESS, stream_flush := WICED_SUCCESS }
        type regAdd regVal ∧
    Event.tcp_stream_read_with_count readLength readTimeout ∈
      sendData myMac serverAddress env type regAdd regVal ∧
    (transportCalls (sendData myMac serverAddress env type regAdd regVal)).drop 7 =
      [.tcp_stream_deinit, .tcp_delete_socket] := by
  refine ⟨rfl, (read_mem_sendData_iff myMac serverAddress env type regAdd regVal).2
    ⟨htype, hconnect⟩, ?_⟩
  obtain ⟨frame, hf⟩ := (formatMessage_isSome_iff myMac type regAdd regVal).2 htype
  unfold sendData
  rw [hf]
  by_cases hr : env.stream_read = WICED_SUCCESS <;>
    simp [hconnect, hr, transportCalls, Event.isTransport, List.filter_cons]

/-- Witness of the amended C7 at a run whose write and flush fail. -/
theorem C7_write_result_ignored_witness :
    ('W' = 'W' ∨ 'W' = 'R') ∧ envWriteFails.connect = WICED_SUCCESS ∧
    Event.tcp_stream_read_with_count readLength readTimeout ∈
      sendData macAABBCCDDEEFF fallbackAddress envWriteFails 'W' 0x10 1 :=
  ⟨by decide, by decide,
    (C7_write_result_ignored macAABBCCDDEEFF fallbackAddress envWriteFails 'W' 0x10 1
      (by decide) (by decide)).2.1⟩

/-! ## Startup -/

theorem application_start_fallback (env : StartupEnv)
    (h : env.lookup = WICED_ERROR ∨ env.lookup_address = 0) :
    (application_start env).1.serverAddress = fallbackAddress ∧
    (application_start env).2[6]? = some fallbackReport ∧
    ((application_start env).2.take 7).any Event.isCreateThread = false := by
  simp only [application_start, if_pos h]
  exact ⟨trivial, rfl, rfl⟩

theorem application_start_resolved (env : StartupEnv)
    (h : ¬ (env.lookup = WICED_ERROR ∨ env.lookup_address = 0)) :
    (application_start env).1.serverAddress = env.lookup_address := by
  unfold application_start
  simp only [if_neg h]

/-- C8 (as stated, refuted): with `wiced_init` and `wiced_network_up` both failing,
`application_start` still registers the two interrupt handlers and creates the two worker
threads. -/
theorem C8_bring_up_failure_not_fatal :
    envBringUpFails.init ≠ WICED_SUCCESS ∧
    envBringUpFails.network_up ≠ WICED_SUCCESS ∧
    (application_start envBringUpFails).2.countP Event.isIrqEnable = 2 ∧
    (application_start envBringUpFails).2.countP Event.isCreateThread = 2 := by
  decide

/-- C8 (amended): `application_start` never aborts startup. Whatever `wiced_init`,
`wiced_network_up` and the hostname lookup return, it registers both interrupt handlers and
then creates both worker threads; in particular no outcome of the hostname lookup, failed
or not, aborts startup. -/
theorem C8_startup_never_aborts (env : StartupEnv) :
    (application_start env).2.filter (fun e => e.isIrqEnable || e.isCreateThread) =
      [.gpio_input_irq_enable 0, .gpio_input_irq_enable 1,
       .rtos_create_thread "Button Update".toList,
       .rtos_create_thread "Button Inquiry".toList] ∧
    (application_start env).2.getLast? = some (.print "Activated button threads...".toList) := by
  unfold application_start
  by_cases h : env.lookup = WICED_ERROR ∨ env.lookup_address = 0
  · simp only [if_pos h]
    constructor
    · simp [List.filter_cons, Event.isIrqEnable, Event.isCreateThread, fallbackReport]
    · simp
  · simp only [if_neg h]
    constructor
    · simp [List.filter_cons, Event.isIrqEnable, Event.isCreateThread]
    · simp

end ClientResponseStream
